import Mathlib

/-!
Shallow embedding of `src/prompts.py` (Reddit MCP prompt templates).

Each `@mcp.prompt` function in the source is a pure function from its
parameters to either a single string or a list of role-tagged messages.
Python `Optional` parameters are modelled as `Option`, and Python
truthiness tests on them (`if aspects`, `if not comparison_aspects`,
`if category`) are modelled explicitly: `None` and the empty list /
empty string are falsy.

F-string interpolation is modelled as string concatenation; the literal
template text is transcribed byte-for-byte from the source (including
trailing spaces on two heading lines).
-/

set_option maxRecDepth 40000

namespace RedditPrompts

/-- Message roles used by the templates (fastmcp `Message`); a `Message`
constructed without an explicit role carries the default role `user`. -/
inductive Role where
  | user
  | assistant
deriving DecidableEq, Repr

/-- A role-tagged message, as returned by `get_started` and `citation_guide`. -/
structure Message where
  content : String
  role : Role := Role.user
deriving DecidableEq, Repr

/-- Python truthiness of an `Optional[List[str]]`: `None` and `[]` are falsy. -/
def pyTruthyList : Option (List String) → Bool
  | none => false
  | some l => !l.isEmpty

/-- Python truthiness of an `Optional[str]`: `None` and `""` are falsy. -/
def pyTruthyStr : Option String → Bool
  | none => false
  | some s => !s.data.isEmpty

/-- CPython `repr` of a `str`, for the printable, escape-free strings used
here: single quotes by default, double quotes when the string contains a
single quote but no double quote. -/
def pyStrRepr (s : String) : String :=
  if s.data.contains '\'' && !s.data.contains '"' then "\"" ++ s ++ "\""
  else "'" ++ s ++ "'"

/-- CPython `str` of a `list[str]` (as interpolated by `f"{subreddits}"`):
bracketed, comma-separated `repr`s of the elements. -/
def pyListRepr (l : List String) : String :=
  "[" ++ String.intercalate ", " (l.map pyStrRepr) ++ "]"

/-- Executable substring test on char lists: `pat` occurs inside `s`. -/
def listContains : List Char → List Char → Bool
  | s@(_ :: rest), pat => pat.isPrefixOf s || listContains rest pat
  | [], pat => pat.isEmpty

/-- Executable substring test on strings: `pat` occurs inside `s`. -/
def strContains (s pat : String) : Bool :=
  listContains s.data pat.data

/-- `get_started()`: a fixed list of six workflow messages; the first is
sent with `role="assistant"`, the rest with the default role. -/
def get_started : List Message :=
  [ ⟨"Welcome to Reddit MCP! I'll help you conduct thorough Reddit research. Here's the recommended workflow for comprehensive analysis:", Role.assistant⟩,
    ⟨"First, let me discover relevant communities for your topic using discover_reddit_resources with discovery_depth='comprehensive'. This will find 8-15 relevant subreddits using multiple search strategies.", Role.user⟩,
    ⟨"Next, I'll use fetch_multiple to efficiently get posts from the top communities. This is 70% more efficient than individual calls and ensures diverse perspectives.", Role.user⟩,
    ⟨"Then, I'll search broadly using search_all for additional coverage beyond the discovered communities.", Role.user⟩,
    ⟨"CRITICAL: I'll fetch detailed comments for AT LEAST 10 posts using fetch_comments with comment_limit of 50-100 for comprehensive discussion analysis.", Role.user⟩,
    ⟨"Finally, I'll compile findings with proper Reddit URL citations for every post and comment referenced. What topic would you like to research?", Role.user⟩ ]

/-- `research_topic(topic, depth, time_range, include_nsfw)`. -/
def research_topic (topic depth time_range : String) (include_nsfw : Bool) : String :=
  let nsfw_note := if include_nsfw then "including NSFW communities" else "excluding NSFW content"
  "I'll conduct a "
    ++ depth
    ++ " Reddit research analysis on '"
    ++ topic
    ++ "' covering the past "
    ++ time_range
    ++ ", "
    ++ nsfw_note
    ++ ".\n\n## Research Plan:\n\n### Phase 1: Community Discovery\n- Use discover_reddit_resources('"
    ++ topic
    ++ "', discovery_depth='"
    ++ depth
    ++ "') to find 8-15 relevant subreddits\n- Document confidence scores and community sizes for prioritization\n\n### Phase 2: Multi-Community Data Collection  \n- Fetch posts from top 8 communities using fetch_multiple_subreddits_tool\n- Parameters: listing_type='hot' for current discussions, limit_per_subreddit=8\n- Expected coverage: ~64 posts from diverse perspectives\n\n### Phase 3: Broad Search Expansion\n- Execute search_all_reddit('"
    ++ topic
    ++ "', time_filter='"
    ++ time_range
    ++ "', limit=25)\n- Capture posts that might not appear in discovered communities\n\n### Phase 4: Deep Comment Analysis (CRITICAL)\n- Fetch full comment trees for top 15 posts using fetch_comments\n- Use comment_limit=75 for comprehensive discussion coverage\n- Focus on posts with high engagement (50+ comments)\n\n### Phase 5: Synthesis & Citation\n- Compile findings with themes, sentiment patterns, and key insights\n- Include Reddit URLs for EVERY cited post and comment\n- Structure: Executive summary → Community analysis → Key themes → Notable discussions\n\nThis approach ensures ~100+ posts and ~1000+ comments analyzed across diverse communities.\nShall I proceed with this research plan?"

/-- The `target` local of `analyze_sentiment`:
`f"r/{subreddit_or_topic}" if is_subreddit else f"topic '{subreddit_or_topic}'"`. -/
def target (subreddit_or_topic : String) (is_subreddit : Bool) : String :=
  if is_subreddit then "r/" ++ subreddit_or_topic
  else "topic '" ++ subreddit_or_topic ++ "'"

/-- The `aspects_text` local of `analyze_sentiment`:
`f" focusing on aspects: {', '.join(aspects)}" if aspects else ""`
(`None` and the empty list are falsy). -/
def aspects_text : Option (List String) → String
  | none => ""
  | some [] => ""
  | some aspects => " focusing on aspects: " ++ String.intercalate ", " aspects

/-- `analyze_sentiment(subreddit_or_topic, is_subreddit, aspects)`. -/
def analyze_sentiment (subreddit_or_topic : String) (is_subreddit : Bool)
    (aspects : Option (List String)) : String :=
  "Please analyze the sentiment and emotional tone in Reddit discussions about "
    ++ target subreddit_or_topic is_subreddit
    ++ aspects_text aspects
    ++ ".\n\n## Analysis Framework:\n\n1. **Overall Sentiment Distribution**\n   - Positive, negative, neutral percentages\n   - Emotional intensity levels\n   - Sentiment trends over time\n\n2. **Key Themes by Sentiment**\n   - What drives positive sentiment?\n   - Common complaints and frustrations\n   - Neutral/informational discussions\n\n3. **Community-Specific Patterns**\n   - How sentiment varies across different subreddits\n   - Differences between casual vs expert communities\n   - Impact of community rules on discussion tone\n\n4. **Notable Emotional Indicators**\n   - Frequently used emotional language\n   - Sarcasm and humor patterns\n   - Support vs criticism ratios\n\n5. **Engagement Correlation**\n   - How sentiment affects upvotes/downvotes\n   - Relationship between sentiment and comment depth\n   - Controversial (mixed sentiment) topics\n\nPlease fetch at least 50 posts and analyze top comments (fetch_comments with limit=50) for accurate sentiment assessment. Include specific examples with Reddit URLs."

/-- The fixed five-item default of `comparison_aspects` in `compare_communities`. -/
def defaultComparisonAspects : List String :=
  ["content focus", "community culture", "moderation style",
   "expertise level", "engagement patterns"]

/-- Everything `compare_communities` renders before the `{aspects_list}` hole. -/
def comparePrefix (subreddits : List String) : String :=
  "Please conduct a comprehensive comparison analysis of these Reddit communities: "
    ++ String.intercalate ", " (subreddits.map (fun s => "r/" ++ s))
    ++ "\n\n## Comparison Framework:\n\n### Data Collection Phase:\n1. Use fetch_multiple_subreddits_tool(subreddit_names="
    ++ pyListRepr subreddits
    ++ ", limit_per_subreddit=15)\n2. Fetch subreddit metadata using reddit://subreddit/\x7bname\x7d/about for each\n3. Analyze top 5 posts from each with fetch_comments(comment_limit=30)\n\n### Comparison Dimensions:\n"

/-- Everything `compare_communities` renders after the `{aspects_list}` hole. -/
def compareSuffix : String :=
  "\n\n### Analysis Structure:\n\n1. **Community Profiles**\n   - Size and activity metrics\n   - Stated purpose and rules\n   - Typical post types\n\n2. **Content Analysis**\n   - Common topics and themes\n   - Content quality and depth\n   - Original content vs shares/links\n\n3. **Engagement Patterns**\n   - Average upvotes/comments\n   - Response time and activity peaks\n   - User retention indicators\n\n4. **Cultural Differences**\n   - Tone and communication style\n   - Newcomer friendliness\n   - Inside jokes and community norms\n\n5. **Unique Value Propositions**\n   - What each community offers uniquely\n   - Overlaps and differentiators\n   - Recommended use cases for each\n\nProvide specific examples with Reddit URLs demonstrating each community's characteristics."

/-- `compare_communities(subreddits, comparison_aspects)`: a falsy
`comparison_aspects` (`None` or `[]`) is replaced by the fixed defaults
before rendering. -/
def compare_communities (subreddits : List String)
    (comparison_aspects : Option (List String)) : String :=
  let resolved := if pyTruthyList comparison_aspects
    then comparison_aspects.getD [] else defaultComparisonAspects
  let aspects_list := String.intercalate "\n" (resolved.map (fun aspect => "   - " ++ aspect))
  comparePrefix subreddits ++ aspects_list ++ compareSuffix

/-- `trending_analysis(category, time_window, min_engagement)`. -/
def trending_analysis (category : Option String) (time_window : String)
    (min_engagement : Int) : String :=
  let category_filter := if pyTruthyStr category
    then " in " ++ category.getD "" else " across all topics"
  "Please identify and analyze trending discussions on Reddit"
    ++ category_filter
    ++ " from the past "
    ++ time_window
    ++ ".\n\n## Trending Analysis Protocol:\n\n### Phase 1: Trend Discovery\n1. Fetch hot posts from popular subreddits using fetch_multiple_subreddits_tool\n2. Search for rapidly rising topics: search_all_reddit(sort='hot', time_filter='"
    ++ time_window
    ++ "')\n3. Focus on posts with "
    ++ toString min_engagement
    ++ "+ upvotes/comments\n\n### Phase 2: Trend Categorization\n- Breaking news and current events\n- Viral content and memes\n- Emerging discussions and debates\n- Technology and product launches\n- Community-specific trends\n\n### Phase 3: Momentum Analysis\nFor each trending topic:\n- Growth rate (upvotes/hour)\n- Cross-subreddit spread\n- Comment velocity and engagement depth\n- Sentiment trajectory\n\n### Phase 4: Deep Dive (Top 5 Trends)\nUse fetch_comments(comment_limit=100) on the top post for each trend to understand:\n- Why it's trending\n- Community reaction patterns\n- Key discussion points\n- Potential longevity\n\n### Phase 5: Predictive Insights\n- Topics likely to continue trending\n- Emerging topics to watch\n- Sentiment shifts to monitor\n\nInclude Reddit URLs for all referenced posts and highlight the single most impactful trend."

/-- `deep_dive(topic, historical_range, min_posts_to_analyze, min_comments_to_analyze)`. -/
def deep_dive (topic historical_range : String)
    (min_posts_to_analyze min_comments_to_analyze : Int) : String :=
  "I'll conduct an exhaustive deep-dive analysis on '"
    ++ topic
    ++ "' covering "
    ++ historical_range
    ++ " of Reddit history.\n\n## Deep Dive Research Protocol:\n\n### Phase 1: Comprehensive Community Mapping\n1. discover_reddit_resources('"
    ++ topic
    ++ "', discovery_depth='comprehensive') - find ALL relevant communities\n2. Batch discover with related terms to ensure no community is missed\n3. Document all communities, even tangentially related ones\n\n### Phase 2: Systematic Data Collection\nTarget: Minimum "
    ++ toString min_posts_to_analyze
    ++ " posts and "
    ++ toString min_comments_to_analyze
    ++ " comments\n\n**Wave 1 - Primary Communities (Top 5)**\n- fetch_multiple_subreddits_tool with limit_per_subreddit=20\n- Cover hot, top, and new to get temporal diversity\n\n**Wave 2 - Secondary Communities (Next 10)**  \n- fetch_multiple_subreddits_tool with limit_per_subreddit=10\n- Focus on specialized/niche perspectives\n\n**Wave 3 - Historical Mining**\n- search_all_reddit('"
    ++ topic
    ++ "', time_filter='year', limit=50)\n- search_all_reddit('"
    ++ topic
    ++ "', time_filter='month', limit=25) for recent\n- search_all_reddit('"
    ++ topic
    ++ "', sort='top', limit=25) for influential posts\n\n### Phase 3: Comment Deep Dive\n- Fetch comments for ALL posts with 100+ upvotes (fetch_comments, limit=100)\n- Fetch comments for posts with 50+ comments regardless of upvotes\n- Total target: "
    ++ toString min_comments_to_analyze
    ++ "+ comments across all discussions\n\n### Phase 4: Multi-Dimensional Analysis\n1. **Temporal Evolution**: How has discussion changed over time?\n2. **Community Perspectives**: How do different communities view this topic?\n3. **Expertise Levels**: Beginner vs expert discussions\n4. **Controversy Mapping**: Divisive aspects and debate points\n5. **Solution Patterns**: Common advice and recommendations\n6. **Myth Busting**: Misconceptions vs factual consensus\n\n### Phase 5: Comprehensive Synthesis\n- Executive summary with key findings\n- Detailed thematic analysis with examples\n- Community-by-community breakdown\n- Timeline of major developments\n- FAQ compiled from common questions\n- Expert insights from highly upvoted technical comments\n- EVERY claim backed by Reddit URL citations\n\nThis exhaustive approach ensures no significant perspective is missed. Proceed?"

/-- The fixed second message of `citation_guide` (citation requirements). -/
def citationRequirementsMessage : Message :=
  ⟨"## Citation Requirements:\n\n1. **Every factual claim** must include the source Reddit URL\n2. **User attribution** format: u/username or [u/username]\n3. **Subreddit references** format: r/subreddit\n4. **Upvote counts** provide credibility context\n5. **Timestamps** for temporal context\n6. **Comment permalinks** for specific discussions", Role.user⟩

/-- The fixed examples message appended by `citation_guide` only when
`include_examples` is true. -/
def citationExamplesMessage : Message :=
  ⟨"## Citation Examples:\n\n**For posts:**\n> According to a highly upvoted analysis [↑2,451] in r/science, the study shows... ([u/ResearcherName](https://reddit.com/r/science/comments/abc123/))\n\n**For comments:**\n> As [u/ExpertUser] explains in their detailed response [↑342]: \"Quote from comment...\" ([permalink](https://reddit.com/r/tech/comments/xyz789/comment/def456/))\n\n**For community consensus:**\n> The r/python community generally agrees (based on 15+ posts analyzed) that... [r/python search results](https://reddit.com/r/python/search?q=topic)\n\n**For controversial topics:**\n> This remains debated, with r/politics [↑1,234] arguing X ([link](https://reddit.com/...)) while r/economics [↑892] contends Y ([link](https://reddit.com/...))", Role.user⟩

/-- The fixed closing message always appended last by `citation_guide`. -/
def citationFinalMessage : Message :=
  ⟨"Remember: Credibility comes from transparent sourcing. Always provide enough context for readers to evaluate the source's reliability. Include URLs for EVERY Reddit reference made.", Role.user⟩

/-- `citation_guide(include_examples, citation_style)`: two fixed opening
messages, an optional examples message, then the fixed closing message. -/
def citation_guide (include_examples : Bool) (citation_style : String) : List Message :=
  let messages : List Message :=
    [ ⟨"Here's how to properly cite Reddit content using " ++ citation_style ++ " citations:", Role.assistant⟩,
      citationRequirementsMessage ]
  let messages := if include_examples then messages ++ [citationExamplesMessage] else messages
  messages ++ [citationFinalMessage]

/-- C1 counterexample: with `aspects` omitted, `analyze_sentiment` renders no
default aspect list at all — the output for topic `"a"` contains neither the
first default aspect string `"content focus"` nor even the word `"aspects"`,
refuting the claim that omission resolves to a rendered default enumeration
for `analyze_sentiment`. -/
theorem analyze_sentiment_omitted_no_default_aspects :
    strContains (analyze_sentiment "a" false none) "content focus" = false ∧
    strContains (analyze_sentiment "a" false none) "aspects" = false := by
  refine ⟨?_, ?_⟩ <;> decide

/-- C1 (amended): the fixed five-aspect default applies to
`compare_communities` only: `compare_communities(["a","b"])` with no
`comparison_aspects` renders all five default aspect strings as bullet lines
and lists `r/a, r/b` as the compared set, while `analyze_sentiment` with
`aspects` omitted renders an empty aspects fragment. -/
theorem default_aspects_only_in_compare_communities :
    strContains (compare_communities ["a", "b"] none)
      "   - content focus\n   - community culture\n   - moderation style\n   - expertise level\n   - engagement patterns" = true ∧
    strContains (compare_communities ["a", "b"] none) "communities: r/a, r/b" = true ∧
    aspects_text none = "" := by
  refine ⟨?_, ?_, ?_⟩ <;> decide

/-- C2 counterexample: an explicitly supplied empty `comparison_aspects`
sequence is not used as the bullet-line list — `compare_communities(["a"], [])`
renders the default aspect `"content focus"` (absent from the supplied
sequence) and in fact renders exactly what the omitted-argument call renders. -/
theorem compare_communities_empty_aspects_uses_defaults :
    strContains (compare_communities ["a"] (some [])) "   - content focus" = true ∧
    compare_communities ["a"] (some []) = compare_communities ["a"] none := by
  refine ⟨?_, rfl⟩
  decide

/-- C2 (amended): for every *non-empty* caller-supplied `comparison_aspects`
sequence, the rendered output uses exactly the supplied sequence, in the given
order, with no deduplication, as the bullet-line list between the fixed prefix
and suffix text; an empty supplied sequence is treated like an omitted one. -/
theorem compare_communities_uses_supplied_aspects
    (subs l : List String) (h : l ≠ []) :
    compare_communities subs (some l) =
      comparePrefix subs
        ++ String.intercalate "\n" (l.map (fun aspect => "   - " ++ aspect))
        ++ compareSuffix := by
  cases l with
  | nil => exact absurd rfl h
  | cons a t => rfl

/-- Witness for C2's amended theorem at `subs = ["a"]`,
`l = ["x", "x"]` (duplicates preserved, order kept). -/
theorem compare_communities_uses_supplied_aspects_witness :
    (["x", "x"] : List String) ≠ [] ∧
    compare_communities ["a"] (some ["x", "x"]) =
      comparePrefix ["a"]
        ++ String.intercalate "\n" ((["x", "x"] : List String).map (fun aspect => "   - " ++ aspect))
        ++ compareSuffix :=
  ⟨by decide, compare_communities_uses_supplied_aspects ["a"] ["x", "x"] (by decide)⟩

/-- C3: every template operation is deterministic — two invocations with
identical argument values render byte-identical output; in this embedding
each template is a function of its arguments alone (no state, no I/O). -/
theorem templates_deterministic :
    (get_started = get_started) ∧
    (∀ (t₁ t₂ d₁ d₂ r₁ r₂ : String) (n₁ n₂ : Bool),
      t₁ = t₂ → d₁ = d₂ → r₁ = r₂ → n₁ = n₂ →
      research_topic t₁ d₁ r₁ n₁ = research_topic t₂ d₂ r₂ n₂) ∧
    (∀ (s₁ s₂ : String) (b₁ b₂ : Bool) (a₁ a₂ : Option (List String)),
      s₁ = s₂ → b₁ = b₂ → a₁ = a₂ →
      analyze_sentiment s₁ b₁ a₁ = analyze_sentiment s₂ b₂ a₂) ∧
    (∀ (l₁ l₂ : List String) (a₁ a₂ : Option (List String)),
      l₁ = l₂ → a₁ = a₂ → compare_communities l₁ a₁ = compare_communities l₂ a₂) ∧
    (∀ (c₁ c₂ : Option String) (w₁ w₂ : String) (m₁ m₂ : Int),
      c₁ = c₂ → w₁ = w₂ → m₁ = m₂ →
      trending_analysis c₁ w₁ m₁ = trending_analysis c₂ w₂ m₂) ∧
    (∀ (t₁ t₂ h₁ h₂ : String) (p₁ p₂ q₁ q₂ : Int),
      t₁ = t₂ → h₁ = h₂ → p₁ = p₂ → q₁ = q₂ →
      deep_dive t₁ h₁ p₁ q₁ = deep_dive t₂ h₂ p₂ q₂) ∧
    (∀ (e₁ e₂ : Bool) (s₁ s₂ : String),
      e₁ = e₂ → s₁ = s₂ → citation_guide e₁ s₁ = citation_guide e₂ s₂) := by
  refine ⟨rfl, ?_, ?_, ?_, ?_, ?_, ?_⟩ <;> (intros; subst_vars; rfl)

/-- Witness for C3 at concrete arguments. -/
theorem templates_deterministic_witness :
    research_topic "AI safety" "comprehensive" "year" false =
      research_topic "AI safety" "comprehensive" "year" false ∧
    citation_guide true "inline" = citation_guide true "inline" :=
  ⟨templates_deterministic.2.1 "AI safety" "AI safety" "comprehensive" "comprehensive"
      "year" "year" false false rfl rfl rfl rfl,
    templates_deterministic.2.2.2.2.2.2 true true "inline" "inline" rfl rfl⟩

/-- C4: `get_started()` returns exactly six messages with fixed content; the
first carries the `assistant` role and the remaining five the default role. -/
theorem get_started_six_messages :
    get_started.length = 6 ∧
    get_started.map Message.role =
      [Role.assistant, Role.user, Role.user, Role.user, Role.user, Role.user] :=
  ⟨rfl, rfl⟩

/-- C5 counterexample: `citation_guide(include_examples=False, "inline")` does
not return 2 messages and `citation_guide(include_examples=True, "inline")`
does not return 3 — the function always appends a closing message after the
two opening ones and the optional examples block. -/
theorem citation_guide_two_three_counterexample :
    ¬ ((citation_guide false "inline").length = 2 ∧
       (citation_guide true "inline").length = 3) := by
  decide

/-- C5 (amended): for every `citation_style`, `include_examples=False` yields
exactly 3 messages and `include_examples=True` exactly 4, whose third message
(the one the flag adds, as a whole unit) contains the literal text
`Citation Examples`. -/
theorem citation_guide_message_counts (style : String) :
    (citation_guide false style).length = 3 ∧
    (citation_guide true style).length = 4 ∧
    (citation_guide true style).get? 2 = some citationExamplesMessage ∧
    strContains citationExamplesMessage.content "Citation Examples" = true := by
  refine ⟨rfl, rfl, rfl, ?_⟩
  decide

/-- C6: `research_topic("AI safety")` with defaults contains `AI safety`,
`past year` and `excluding NSFW content`; with `include_nsfw=True` it contains
`including NSFW communities` and not `excluding NSFW content`. -/
theorem research_topic_literals :
    strContains (research_topic "AI safety" "comprehensive" "year" false) "AI safety" = true ∧
    strContains (research_topic "AI safety" "comprehensive" "year" false) "past year" = true ∧
    strContains (research_topic "AI safety" "comprehensive" "year" false) "excluding NSFW content" = true ∧
    strContains (research_topic "AI safety" "comprehensive" "year" true) "including NSFW communities" = true ∧
    strContains (research_topic "AI safety" "comprehensive" "year" true) "excluding NSFW content" = false := by
  refine ⟨?_, ?_, ?_, ?_, ?_⟩ <;> decide

/-- C7: `deep_dive("climate", min_posts_to_analyze=50, min_comments_to_analyze=500)`
renders `50` and `500` in the Phase 2 target header and `500` again in the
Phase 3 total-target line. -/
theorem deep_dive_targets :
    strContains (deep_dive "climate" "year" 50 500)
      "Target: Minimum 50 posts and 500 comments" = true ∧
    strContains (deep_dive "climate" "year" 50 500)
      "Total target: 500+ comments" = true := by
  refine ⟨?_, ?_⟩ <;> decide

/-- C8: `analyze_sentiment` renders the target as `r/<name>` when
`is_subreddit` is true and as `topic '<name>'` otherwise; in particular the
full renders for `"python"` contain `r/python` resp. `topic 'python'`. -/
theorem analyze_sentiment_target_rendering :
    (∀ name : String, target name true = "r/" ++ name) ∧
    (∀ name : String, target name false = "topic '" ++ name ++ "'") ∧
    strContains (analyze_sentiment "python" true none) "r/python" = true ∧
    strContains (analyze_sentiment "python" false none) "topic 'python'" = true := by
  refine ⟨fun name => rfl, fun name => rfl, ?_, ?_⟩ <;> decide

/-- C9: an explicitly supplied empty `aspects` list behaves exactly like an
omitted `aspects` argument — the renders are equal for every input, the
aspects fragment is empty in both cases, and the rendered string carries no
`focusing on aspects` fragment. -/
theorem analyze_sentiment_empty_aspects_like_omitted :
    (∀ (x : String) (b : Bool),
      analyze_sentiment x b (some []) = analyze_sentiment x b none) ∧
    aspects_text (some []) = "" ∧
    aspects_text none = "" ∧
    strContains (analyze_sentiment "python" false (some [])) "focusing on aspects" = false := by
  refine ⟨fun x b => rfl, rfl, rfl, ?_⟩
  decide

/-- C10: for every `citation_style`, the `include_examples=True` output is the
`include_examples=False` output with the single examples message inserted
before the final message; head and final message agree across both settings,
and the final message is the fixed `Remember: Credibility comes from
transparent sourcing` reminder. -/
theorem citation_guide_examples_insertion (style : String) :
    citation_guide true style =
      (citation_guide false style).take 2
        ++ citationExamplesMessage :: (citation_guide false style).drop 2 ∧
    (citation_guide true style).head? = (citation_guide false style).head? ∧
    (citation_guide true style).getLast? = (citation_guide false style).getLast? ∧
    (citation_guide false style).getLast? = some citationFinalMessage ∧
    strContains citationFinalMessage.content
      "Remember: Credibility comes from transparent sourcing" = true := by
  refine ⟨rfl, rfl, by simp [citation_guide], by simp [citation_guide], ?_⟩
  decide

end RedditPrompts
